import Mathlib

/-!
# Verification of `etl::delegate_service` (src/include/etl/delegate_service.h)

A shallow embedding of the indexed delegate service.  Side effects of
invoking a delegate are recorded as traces of `Event`s.  The external
collaborator `etl::delegate<void(size_t)>` is modelled as an opaque,
type-erased callable with a validity flag: a user-constructible delegate is
either default-constructed (invalid) or bound to a callable identified by a
tag.  The owned variant's lookup slots may additionally hold the
construction-time default delegate, which the constructor binds to the
service's private `unhandled` member function; invoking it reads the
service's current `unhandled_delegate` field.
-/

namespace EtlDelegateService

/-- An observable event of invoking a delegate with an id.  Invoking an
invalid (unbound) delegate is undefined behaviour in the source and is
recorded as a distinguished event. -/
inductive Event where
  | invoked (tag : Nat) (id : Nat) : Event
  | invokedInvalid (id : Nat) : Event
deriving DecidableEq, Repr

/-- A user-constructible `etl::delegate<void(size_t)>`: default-constructed
(invalid) or bound to a free function / member-function-plus-receiver pair,
abstracted as a tag identifying the bound callable. -/
inductive UserDelegate where
  | invalid : UserDelegate
  | bound (tag : Nat) : UserDelegate
deriving DecidableEq, Repr

/-- The member `is_valid()` of `etl::delegate`: true iff the delegate is bound. -/
def UserDelegate.is_valid : UserDelegate → Bool
  | .invalid => false
  | .bound _ => true

/-- Invocation `operator()(id)` of a user delegate: the trace of events it
emits. -/
def UserDelegate.invoke : UserDelegate → Nat → List Event
  | .invalid, id => [.invokedInvalid id]
  | .bound t, id => [.invoked t id]

/-- A slot of the owned variant's `lookup` table: either a delegate supplied
through the registration API, or the default delegate that the constructor
binds to the service's own `unhandled` method. -/
inductive SlotDelegate where
  | ofUser (d : UserDelegate) : SlotDelegate
  | defaultDelegate : SlotDelegate
deriving DecidableEq, Repr

/-- Validity of a slot: the default delegate is a bound member-function
delegate, hence valid. -/
def SlotDelegate.is_valid : SlotDelegate → Bool
  | .ofUser d => d.is_valid
  | .defaultDelegate => true

/-- Invocation `operator()(id)` of a slot delegate of a service whose current
`unhandled_delegate` field is `fb`.  The default delegate forwards to the
service's `unhandled(id)`, which invokes `fb` only if `fb.is_valid()`. -/
def SlotDelegate.invoke (fb : UserDelegate) : SlotDelegate → Nat → List Event
  | .ofUser d, id => d.invoke id
  | .defaultDelegate, id => if fb.is_valid then fb.invoke id else []

/-- The owned variant `etl::delegate_service<Range, Offset, nullptr>`:
a mutable lookup table of `Range` slots plus the `unhandled_delegate`
fallback. -/
structure delegate_service (Range Offset : Nat) where
  unhandled_delegate : UserDelegate
  lookup : Fin Range → SlotDelegate

/-- The default constructor: `unhandled_delegate` is default-constructed
(invalid) and every slot of `lookup` is filled with the default delegate
bound to this service's `unhandled` method. -/
def delegate_service.init (Range Offset : Nat) : delegate_service Range Offset :=
  { unhandled_delegate := .invalid
    lookup := fun _ => .defaultDelegate }

/-- The private `unhandled(id)` method: invokes `unhandled_delegate` with
`id` if it is valid, otherwise does nothing. -/
def delegate_service.unhandled {Range Offset : Nat}
    (s : delegate_service Range Offset) (id : Nat) : List Event :=
  if s.unhandled_delegate.is_valid then s.unhandled_delegate.invoke id else []

/-- Runtime `register_delegate(id, callback)`: overwrites
`lookup[id - Offset]` when `Offset <= id < Offset + Range`, otherwise does
nothing. -/
def delegate_service.register_delegate {Range Offset : Nat}
    (s : delegate_service Range Offset) (id : Nat) (callback : UserDelegate) :
    delegate_service Range Offset :=
  if h : Offset ≤ id ∧ id < Offset + Range then
    { s with lookup := Function.update s.lookup ⟨id - Offset, by omega⟩ (.ofUser callback) }
  else
    s

/-- Compile-time `register_delegate<Id>(callback)`: the two
`ETL_STATIC_ASSERT` conditions become hypotheses; the slot
`lookup[Id - Offset]` is overwritten unconditionally. -/
def delegate_service.register_delegate_checked {Range Offset : Nat}
    (s : delegate_service Range Offset) (Id : Nat)
    (h1 : Id < Offset + Range) (h2 : Offset ≤ Id) (callback : UserDelegate) :
    delegate_service Range Offset :=
  { s with lookup := Function.update s.lookup ⟨Id - Offset, by omega⟩ (.ofUser callback) }

/-- `register_unhandled_delegate(callback)`: unconditionally assigns the
`unhandled_delegate` field. -/
def delegate_service.register_unhandled_delegate {Range Offset : Nat}
    (s : delegate_service Range Offset) (callback : UserDelegate) :
    delegate_service Range Offset :=
  { s with unhandled_delegate := callback }

/-- Runtime `call(id)` of the owned variant.  The method is `const`; the
embedding returns the (unchanged) state paired with the trace of events.
In range it invokes `lookup[id - Offset](id)`; out of range it invokes
`unhandled_delegate(id)` only if that delegate is valid. -/
def delegate_service.call {Range Offset : Nat}
    (s : delegate_service Range Offset) (id : Nat) :
    delegate_service Range Offset × List Event :=
  if h : Offset ≤ id ∧ id < Offset + Range then
    (s, (s.lookup ⟨id - Offset, by omega⟩).invoke s.unhandled_delegate id)
  else
    (s, if s.unhandled_delegate.is_valid then s.unhandled_delegate.invoke id else [])

/-- Compile-time `call<Id>()` of the owned variant: the `ETL_STATIC_ASSERT`
conditions become hypotheses; invokes `lookup[Id - Offset](Id)`. -/
def delegate_service.call_checked {Range Offset : Nat}
    (s : delegate_service Range Offset) (Id : Nat)
    (h1 : Id < Offset + Range) (h2 : Offset ≤ Id) :
    delegate_service Range Offset × List Event :=
  (s, (s.lookup ⟨Id - Offset, by omega⟩).invoke s.unhandled_delegate Id)

/-- The static (primary-template) variant
`etl::delegate_service<Range, Offset, Delegates>` with a non-null
`Delegates` pointer: a thin view over an externally owned array, which the
contract requires to hold `Range + 1` delegates (slot `Range` is the
designated out-of-range slot). -/
structure delegate_service_static (Range Offset : Nat) where
  Delegates : Fin (Range + 1) → UserDelegate

/-- Runtime `call(id)` of the static variant.  In range it invokes
`Delegates[id - Offset](id)`; out of range it invokes `Delegates[Range](id)`
unconditionally, with no validity check. -/
def delegate_service_static.call {Range Offset : Nat}
    (s : delegate_service_static Range Offset) (id : Nat) :
    delegate_service_static Range Offset × List Event :=
  if h : Offset ≤ id ∧ id < Offset + Range then
    (s, (s.Delegates ⟨id - Offset, by omega⟩).invoke id)
  else
    (s, (s.Delegates ⟨Range, by omega⟩).invoke id)

/-- Compile-time `call<Id>()` of the static variant: the
`ETL_STATIC_ASSERT` conditions become hypotheses; invokes
`Delegates[Id - Offset](Id)`. -/
def delegate_service_static.call_checked {Range Offset : Nat}
    (s : delegate_service_static Range Offset) (Id : Nat)
    (h1 : Id < Offset + Range) (h2 : Offset ≤ Id) :
    delegate_service_static Range Offset × List Event :=
  (s, (s.Delegates ⟨Id - Offset, by omega⟩).invoke Id)

/-- The conjunction of the two `ETL_STATIC_ASSERT` conditions guarding every
compile-time-identifier path:
`Id < (Offset + Range)` and `Id >= Offset`. -/
def static_assert_cond (Range Offset Id : Nat) : Prop :=
  Id < Offset + Range ∧ Offset ≤ Id

instance (Range Offset Id : Nat) : Decidable (static_assert_cond Range Offset Id) := by
  unfold static_assert_cond
  infer_instance

/-- An identifier is in range iff `Offset ≤ id < Offset + Range`. -/
def in_range (Range Offset id : Nat) : Prop :=
  Offset ≤ id ∧ id < Offset + Range

instance (Range Offset id : Nat) : Decidable (in_range Range Offset id) := by
  unfold in_range
  infer_instance

/-- Every slot of the owned variant's lookup table holds a valid delegate. -/
def all_slots_valid {Range Offset : Nat} (s : delegate_service Range Offset) : Prop :=
  ∀ i : Fin Range, (s.lookup i).is_valid = true

/-! ## Claim theorems -/

/-- C1: in the owned variant, for every id with `Offset ≤ id < Offset + Range`
and every valid delegate `h` (a delegate bound to some callable `t`), after
`register_delegate id h` a subsequent `call id` emits exactly the single
event of invoking `h` with argument `id`, and invokes no other handler. -/
theorem C1_register_then_call_invokes_exactly_h {Range Offset : Nat}
    (s : delegate_service Range Offset) (id t : Nat) (h : UserDelegate)
    (hlo : Offset ≤ id) (hhi : id < Offset + Range)
    (hb : h = UserDelegate.bound t) :
    ((s.register_delegate id h).call id).2 = [Event.invoked t id] := by
  subst hb
  unfold delegate_service.register_delegate delegate_service.call
  rw [dif_pos ⟨hlo, hhi⟩, dif_pos ⟨hlo, hhi⟩]
  simp [Function.update_same, SlotDelegate.invoke, UserDelegate.invoke]

/-- Witness for C1 at `Range = 4`, `Offset = 10`, `id = 12`,
`h = bound 7` on a fresh service. -/
theorem C1_witness :
    (((delegate_service.init 4 10).register_delegate 12 (UserDelegate.bound 7)).call 12).2
      = [Event.invoked 7 12] :=
  C1_register_then_call_invokes_exactly_h (delegate_service.init 4 10) 12 7
    (UserDelegate.bound 7) (by omega) (by omega) rfl

/-- C2: in the owned variant, for every id outside `[Offset, Offset + Range)`,
`call id` routes through the fallback guard (`unhandled`), its trace does not
depend on the lookup slots (no in-range slot is read or invoked), an invalid
fallback produces no observable action, and a valid fallback is invoked
exactly once with argument `id`. -/
theorem C2_out_of_range_call_routes_to_fallback {Range Offset : Nat}
    (s sb : delegate_service Range Offset) (id t : Nat)
    (hout : ¬ in_range Range Offset id)
    (hfb : s.unhandled_delegate = sb.unhandled_delegate) :
    (s.call id).2 = s.unhandled id
    ∧ (s.call id).2 = (sb.call id).2
    ∧ ((s.register_unhandled_delegate UserDelegate.invalid).call id).2 = []
    ∧ ((s.register_unhandled_delegate (UserDelegate.bound t)).call id).2
        = [Event.invoked t id] := by
  unfold in_range at hout
  refine ⟨?_, ?_, ?_, ?_⟩
  · unfold delegate_service.call delegate_service.unhandled
    rw [dif_neg hout]
  · unfold delegate_service.call
    rw [dif_neg hout, dif_neg hout, hfb]
  · unfold delegate_service.call delegate_service.register_unhandled_delegate
    rw [dif_neg hout]
    simp [UserDelegate.is_valid]
  · unfold delegate_service.call delegate_service.register_unhandled_delegate
    rw [dif_neg hout]
    simp [UserDelegate.is_valid, UserDelegate.invoke]

/-- Witness for C2 at `Range = 4`, `Offset = 10`, out-of-range `id = 99`,
comparing a fresh service with one that has an in-range registration. -/
theorem C2_witness :
    ((delegate_service.init 4 10).call 99).2 = (delegate_service.init 4 10).unhandled 99
    ∧ ((delegate_service.init 4 10).call 99).2
        = (((delegate_service.init 4 10).register_delegate 12 (UserDelegate.bound 7)).call 99).2
    ∧ (((delegate_service.init 4 10).register_unhandled_delegate UserDelegate.invalid).call 99).2
        = []
    ∧ (((delegate_service.init 4 10).register_unhandled_delegate (UserDelegate.bound 3)).call 99).2
        = [Event.invoked 3 99] :=
  C2_out_of_range_call_routes_to_fallback (delegate_service.init 4 10)
    ((delegate_service.init 4 10).register_delegate 12 (UserDelegate.bound 7)) 99 3
    (by decide) (by decide)

/-- C3: in the static variant, `call id` invokes `Delegates[id - Offset]`
with argument `id` when `Offset ≤ id < Offset + Range`, and otherwise invokes
`Delegates[Range]` with argument `id` unconditionally, with no validity check,
regardless of how far out of range `id` is. -/
theorem C3_static_call_dispatch {Range Offset : Nat}
    (s : delegate_service_static Range Offset) (idIn idOut : Nat)
    (hlo : Offset ≤ idIn) (hhi : idIn < Offset + Range)
    (hout : ¬ in_range Range Offset idOut) :
    (s.call idIn).2 = (s.Delegates ⟨idIn - Offset, by omega⟩).invoke idIn
    ∧ (s.call idOut).2 = (s.Delegates ⟨Range, Nat.lt_succ_self Range⟩).invoke idOut := by
  unfold in_range at hout
  constructor
  · unfold delegate_service_static.call
    rw [dif_pos ⟨hlo, hhi⟩]
  · unfold delegate_service_static.call
    rw [dif_neg hout]

/-- Witness for C3: concrete scenario with `Range = 2`, `Offset = 0` and the
three delegates tagged `0`, `1`, `2`: `call 1` invokes the slot with tag `1`
and `call 5` invokes the out-of-range slot with tag `2`. -/
theorem C3_witness :
    (((⟨fun i => UserDelegate.bound i.val⟩ : delegate_service_static 2 0)).call 1).2
      = [Event.invoked 1 1]
    ∧ (((⟨fun i => UserDelegate.bound i.val⟩ : delegate_service_static 2 0)).call 5).2
      = [Event.invoked 2 5] := by
  have h := C3_static_call_dispatch
    (⟨fun i => UserDelegate.bound i.val⟩ : delegate_service_static 2 0) 1 5
    (by omega) (by omega) (by decide)
  exact ⟨h.1, h.2⟩

/-- C4: in the owned variant, a freshly constructed service (optionally after
setting the fallback) treats every id, in range or not, identically: the
trace of `call id` is exactly that of the fallback guard `unhandled id`,
because every slot holds the default delegate forwarding to the fallback;
on the pristine service the fallback starts invalid, so `call id` emits
nothing at all. -/
theorem C4_fresh_table_in_range_equals_out_of_range (Range Offset : Nat)
    (fb : UserDelegate) (id : Nat) :
    ((delegate_service.init Range Offset).call id).2 = []
    ∧ (((delegate_service.init Range Offset).register_unhandled_delegate fb).call id).2
        = ((delegate_service.init Range Offset).register_unhandled_delegate fb).unhandled id := by
  constructor
  · unfold delegate_service.call delegate_service.init
    split
    · simp [SlotDelegate.invoke, UserDelegate.is_valid]
    · simp [UserDelegate.is_valid]
  · unfold delegate_service.call delegate_service.register_unhandled_delegate
      delegate_service.unhandled delegate_service.init
    split
    · simp [SlotDelegate.invoke]
    · rfl

/-- C5: in the owned variant, for every in-range id, registering `h1` and then
`h2` at the same id yields exactly the state obtained by registering only
`h2` (last write wins, no composition), and a subsequent `call id` emits the
trace of invoking `h2` with argument `id`. -/
theorem C5_last_write_wins {Range Offset : Nat}
    (s : delegate_service Range Offset) (id : Nat) (h1 h2 : UserDelegate)
    (hlo : Offset ≤ id) (hhi : id < Offset + Range) :
    (s.register_delegate id h1).register_delegate id h2 = s.register_delegate id h2
    ∧ (((s.register_delegate id h1).register_delegate id h2).call id).2 = h2.invoke id := by
  have hstate :
      (s.register_delegate id h1).register_delegate id h2 = s.register_delegate id h2 := by
    unfold delegate_service.register_delegate
    rw [dif_pos ⟨hlo, hhi⟩, dif_pos ⟨hlo, hhi⟩, dif_pos ⟨hlo, hhi⟩]
    simp [Function.update_idem]
  refine ⟨hstate, ?_⟩
  rw [hstate]
  unfold delegate_service.register_delegate delegate_service.call
  rw [dif_pos ⟨hlo, hhi⟩, dif_pos ⟨hlo, hhi⟩]
  simp [Function.update_same, SlotDelegate.invoke]

/-- Witness for C5 at `Range = 4`, `Offset = 10`, `id = 12`, registering
tags `1` then `2` on a fresh service. -/
theorem C5_witness :
    (((delegate_service.init 4 10).register_delegate 12 (UserDelegate.bound 1)).register_delegate
        12 (UserDelegate.bound 2))
      = (delegate_service.init 4 10).register_delegate 12 (UserDelegate.bound 2)
    ∧ ((((delegate_service.init 4 10).register_delegate 12
          (UserDelegate.bound 1)).register_delegate 12 (UserDelegate.bound 2)).call 12).2
      = (UserDelegate.bound 2).invoke 12 :=
  C5_last_write_wins (delegate_service.init 4 10) 12
    (UserDelegate.bound 1) (UserDelegate.bound 2) (by omega) (by omega)

/-- C6: in the owned variant, for every id outside `[Offset, Offset + Range)`
and every delegate, `register_delegate id cb` is a silent no-op: the whole
service state (all slots and the fallback) is unchanged and no error is
signalled. -/
theorem C6_out_of_range_register_is_noop {Range Offset : Nat}
    (s : delegate_service Range Offset) (id : Nat) (cb : UserDelegate)
    (hout : ¬ in_range Range Offset id) :
    s.register_delegate id cb = s := by
  unfold in_range at hout
  unfold delegate_service.register_delegate
  rw [dif_neg hout]

/-- Witness for C6 at `Range = 4`, `Offset = 10`, out-of-range `id = 99`. -/
theorem C6_witness :
    (delegate_service.init 4 10).register_delegate 99 (UserDelegate.bound 7)
      = delegate_service.init 4 10 :=
  C6_out_of_range_register_is_noop (delegate_service.init 4 10) 99
    (UserDelegate.bound 7) (by decide)

/-- C7: in the owned variant, under the precondition that every registered
delegate is valid, every slot always holds a valid delegate: this holds after
construction and is preserved by `register_delegate` (runtime and
compile-time forms), `register_unhandled_delegate`, `call` and
`call_checked`. -/
theorem C7_slots_always_valid {Range Offset : Nat}
    (s : delegate_service Range Offset) (id Id : Nat)
    (cb cb2 fb : UserDelegate)
    (hA : all_slots_valid s)
    (hcb : cb.is_valid = true) (hcb2 : cb2.is_valid = true)
    (h1 : Id < Offset + Range) (h2 : Offset ≤ Id) :
    all_slots_valid (delegate_service.init Range Offset)
    ∧ all_slots_valid (s.register_delegate id cb)
    ∧ all_slots_valid (s.register_delegate_checked Id h1 h2 cb2)
    ∧ all_slots_valid (s.register_unhandled_delegate fb)
    ∧ all_slots_valid ((s.call id).1)
    ∧ all_slots_valid ((s.call_checked Id h1 h2).1) := by
  refine ⟨?_, ?_, ?_, ?_, ?_, ?_⟩
  · intro i
    rfl
  · intro i
    unfold delegate_service.register_delegate
    by_cases hin : Offset ≤ id ∧ id < Offset + Range
    · rw [dif_pos hin]
      simp only [Function.update_apply]
      split
      · exact hcb
      · exact hA i
    · rw [dif_neg hin]
      exact hA i
  · intro i
    unfold delegate_service.register_delegate_checked
    simp only [Function.update_apply]
    split
    · exact hcb2
    · exact hA i
  · intro i
    exact hA i
  · intro i
    unfold delegate_service.call
    split <;> exact hA i
  · intro i
    exact hA i

/-- Witness for C7 at `Range = 4`, `Offset = 10`, registering tag `1`
at the runtime id `12` and tag `2` at the compile-time id `11`. -/
theorem C7_witness :
    all_slots_valid (delegate_service.init 4 10)
    ∧ all_slots_valid ((delegate_service.init 4 10).register_delegate 12 (UserDelegate.bound 1))
    ∧ all_slots_valid ((delegate_service.init 4 10).register_delegate_checked 11
        (by omega) (by omega) (UserDelegate.bound 2))
    ∧ all_slots_valid ((delegate_service.init 4 10).register_unhandled_delegate
        (UserDelegate.bound 3))
    ∧ all_slots_valid (((delegate_service.init 4 10).call 12).1)
    ∧ all_slots_valid (((delegate_service.init 4 10).call_checked 11 (by omega) (by omega)).1) :=
  C7_slots_always_valid (delegate_service.init 4 10) 12 11
    (UserDelegate.bound 1) (UserDelegate.bound 2) (UserDelegate.bound 3)
    (fun i => rfl) rfl rfl (by omega) (by omega)

/-- C8: the compile-time-checked paths are guarded by the static-assert
condition, which holds exactly for in-range identifiers: an out-of-range
compile-time id violates it (the build fails, no runtime fault is possible),
while for an in-range id the condition holds, `call_checked` in both variants
invokes slot `Id - Offset` with argument `Id`, and
`register_delegate_checked` writes slot `Id - Offset`. -/
theorem C8_compile_time_range_check {Range Offset IdIn IdOut : Nat}
    (s : delegate_service Range Offset) (t : delegate_service_static Range Offset)
    (cb : UserDelegate)
    (h1 : IdIn < Offset + Range) (h2 : Offset ≤ IdIn)
    (hout : ¬ in_range Range Offset IdOut) :
    ¬ static_assert_cond Range Offset IdOut
    ∧ static_assert_cond Range Offset IdIn
    ∧ (s.call_checked IdIn h1 h2).2
        = (s.lookup ⟨IdIn - Offset, by omega⟩).invoke s.unhandled_delegate IdIn
    ∧ (t.call_checked IdIn h1 h2).2 = (t.Delegates ⟨IdIn - Offset, by omega⟩).invoke IdIn
    ∧ (s.register_delegate_checked IdIn h1 h2 cb).lookup ⟨IdIn - Offset, by omega⟩
        = SlotDelegate.ofUser cb := by
  unfold in_range at hout
  unfold static_assert_cond
  refine ⟨by omega, by omega, rfl, rfl, ?_⟩
  unfold delegate_service.register_delegate_checked
  simp [Function.update_same]

/-- Witness for C8 at `Range = 4`, `Offset = 10`, in-range `Id = 12`,
out-of-range `Id = 99`. -/
theorem C8_witness :
    ¬ static_assert_cond 4 10 99
    ∧ static_assert_cond 4 10 12
    ∧ ((delegate_service.init 4 10).call_checked 12 (by omega) (by omega)).2
        = ((delegate_service.init 4 10).lookup ⟨2, by omega⟩).invoke
            (delegate_service.init 4 10).unhandled_delegate 12
    ∧ (((⟨fun i => UserDelegate.bound i.val⟩ : delegate_service_static 4 10)).call_checked 12
          (by omega) (by omega)).2
        = (((⟨fun i => UserDelegate.bound i.val⟩ : delegate_service_static 4 10)).Delegates
            ⟨2, by omega⟩).invoke 12
    ∧ ((delegate_service.init 4 10).register_delegate_checked 12 (by omega) (by omega)
          (UserDelegate.bound 7)).lookup ⟨2, by omega⟩
        = SlotDelegate.ofUser (UserDelegate.bound 7) :=
  C8_compile_time_range_check (delegate_service.init 4 10)
    (⟨fun i => UserDelegate.bound i.val⟩ : delegate_service_static 4 10)
    (UserDelegate.bound 7) (by omega) (by omega) (by decide)

/-- C9: in the owned variant, `register_unhandled_delegate cb` unconditionally
sets the fallback to `cb` (also when `cb` is invalid, which resets the
service to silent-drop for ids routed to the fallback) and modifies no slot
of the lookup table. -/
theorem C9_register_unhandled_sets_fallback {Range Offset : Nat}
    (s : delegate_service Range Offset) (cb : UserDelegate) :
    (s.register_unhandled_delegate cb).unhandled_delegate = cb
    ∧ (s.register_unhandled_delegate cb).lookup = s.lookup :=
  ⟨rfl, rfl⟩

/-- C10: in both variants, `call` and `call_checked` never modify the service:
the state component of the embedding is returned unchanged for every id, so
dispatch is a read-only operation on the table state. -/
theorem C10_call_is_read_only {Range Offset : Nat}
    (s : delegate_service Range Offset) (t : delegate_service_static Range Offset)
    (id Id : Nat) (h1 : Id < Offset + Range) (h2 : Offset ≤ Id) :
    (s.call id).1 = s ∧ (t.call id).1 = t
    ∧ (s.call_checked Id h1 h2).1 = s ∧ (t.call_checked Id h1 h2).1 = t := by
  refine ⟨?_, ?_, rfl, rfl⟩
  · unfold delegate_service.call
    split <;> rfl
  · unfold delegate_service_static.call
    split <;> rfl

/-- Witness for C10 at `Range = 4`, `Offset = 10`, runtime `id = 99`,
compile-time `Id = 12`. -/
theorem C10_witness :
    ((delegate_service.init 4 10).call 99).1 = delegate_service.init 4 10
    ∧ (((⟨fun i => UserDelegate.bound i.val⟩ : delegate_service_static 4 10)).call 99).1
        = (⟨fun i => UserDelegate.bound i.val⟩ : delegate_service_static 4 10)
    ∧ ((delegate_service.init 4 10).call_checked 12 (by omega) (by omega)).1
        = delegate_service.init 4 10
    ∧ (((⟨fun i => UserDelegate.bound i.val⟩ : delegate_service_static 4 10)).call_checked 12
          (by omega) (by omega)).1
        = (⟨fun i => UserDelegate.bound i.val⟩ : delegate_service_static 4 10) :=
  C10_call_is_read_only (delegate_service.init 4 10)
    (⟨fun i => UserDelegate.bound i.val⟩ : delegate_service_static 4 10)
    99 12 (by omega) (by omega)

end EtlDelegateService
